import Mathlib

/-!
Shallow embedding of the ImPlot3D OpenGL3 rendering backend
(`implot3d_impl_opengl3.cpp`, WBOIT variant).

Modelling conventions:
* `ImTextureID` is a natural number; the sentinel `ImTextureID_Invalid`
  is `0` (as in ImGui, where the sentinel is `(ImTextureID)0`, and the
  backend checks `(GLuint)(intptr_t)tex_id != 0`).
* The GL driver's texture-name allocator (`glGenTextures`) is modelled
  by a monotone counter `nextTexId`: a freshly generated name is the
  current counter value, distinct from every live name (the guarantee
  OpenGL gives).  The counter starts at `1` because `glGenTextures`
  never returns `0`.
* `g_CreatedTextures` (the backend's tracking pool) is `createdTextures`.
* The GL driver's texture-object table is `texTable`, an association
  list from texture name to the width/height passed to `glTexImage2D`;
  `glDeleteTextures` removes the object with that name.
* `ImVec2` sizes are cast with `(int)size.x` before any use, so sizes
  are modelled directly as pairs of integers.
* Pure GL draw-state calls (binds, clears, uniforms, draws) do not
  change any modelled state; the render pass instead emits events
  recording whether a plot was actually drawn or was skipped by the
  framebuffer-completeness check, whose outcome is an external oracle.
-/

/-- `ImTextureID_Invalid` (`(ImTextureID)0`).  Texture handles
(`ImTextureID`) are modelled as plain naturals, with `0` the invalid
sentinel. -/
def ImTextureID_Invalid : Nat := 0

/-- GL format/filter constants used by the texture factory. -/
def GL_RGBA : Nat := 0x1908
def GL_UNSIGNED_BYTE : Nat := 0x1401
def GL_LINEAR : Nat := 0x2601
def GL_NEAREST : Nat := 0x2600
def GL_DEPTH_COMPONENT : Nat := 0x1902
def GL_DEPTH_COMPONENT24 : Nat := 0x81A6
def GL_UNSIGNED_INT : Nat := 0x1405
def GL_RGBA16F : Nat := 0x881A
def GL_R16F : Nat := 0x822D
def GL_RED : Nat := 0x1903
def GL_FLOAT : Nat := 0x1406

/-- `ImPlot3D_ImplOpenGL3_Data`: the singleton backend state holding the
shader programs, attribute/uniform locations and persistent GL objects.
Value-initialisation (`ImPlot3D_ImplOpenGL3_Data()`) zeroes every field. -/
structure ImPlot3D_ImplOpenGL3_Data where
  ShaderProgram : Nat
  CompositeShaderProgram : Nat
  AttribLocationPosition : Int
  AttribLocationColor : Int
  UniformLocationRotation : Int
  UniformLocationViewportSize : Int
  CompositeAttribLocationPosition : Int
  CompositeAttribLocationUV : Int
  CompositeUniformLocationAccum : Int
  CompositeUniformLocationReveal : Int
  VBO : Nat
  EBO : Nat
  VAO : Nat
  CompositeVAO : Nat
  FBO : Nat
deriving DecidableEq

/-- The zero-initialised (pre-`Init`) backend data. -/
def ImPlot3D_ImplOpenGL3_Data.zero : ImPlot3D_ImplOpenGL3_Data :=
  ⟨0, 0, 0, 0, 0, 0, 0, 0, 0, 0, 0, 0, 0, 0, 0⟩

/-- The process-wide mutable state the backend touches: `g_Data`, the
texture tracking pool `g_CreatedTextures`, and the GL driver's
texture-object table together with its name allocator. -/
structure Backend where
  data : ImPlot3D_ImplOpenGL3_Data
  nextTexId : Nat
  createdTextures : List Nat
  texTable : List (Nat × Int × Int)
deriving DecidableEq

/-- `CreateTexture(size, internalFormat, format, type, minFilter, magFilter)`:
returns `ImTextureID_Invalid` for a non-positive size, otherwise generates a
fresh GL texture name, defines the texture storage at the requested size
(`glTexImage2D`), and registers the name in `g_CreatedTextures`. -/
def CreateTexture (size : Int × Int)
    (internalFormat format ty minFilter magFilter : Nat)
    (st : Backend) : Nat × Backend :=
  let width := size.1
  let height := size.2
  if width ≤ 0 ∨ height ≤ 0 then
    (ImTextureID_Invalid, st)
  else
    let texture_id := st.nextTexId
    (texture_id,
      { st with
        nextTexId := st.nextTexId + 1
        createdTextures := st.createdTextures ++ [texture_id]
        texTable := st.texTable ++ [(texture_id, width, height)] })

/-- `ImPlot3D_ImplOpenGL3_CreateRGBATexture`: color texture (RGBA8, linear
filtering).  The `IM_ASSERT_USER_ERROR` on a non-positive size is debug
diagnostics only; control flow falls through to `CreateTexture`, which
returns the invalid sentinel. -/
def ImPlot3D_ImplOpenGL3_CreateRGBATexture (size : Int × Int) (st : Backend) :
    Nat × Backend :=
  CreateTexture size GL_RGBA GL_RGBA GL_UNSIGNED_BYTE GL_LINEAR GL_LINEAR st

/-- `ImPlot3D_ImplOpenGL3_CreateDepthTexture`: 24-bit depth texture with
nearest filtering. -/
def ImPlot3D_ImplOpenGL3_CreateDepthTexture (size : Int × Int) (st : Backend) :
    Nat × Backend :=
  CreateTexture size GL_DEPTH_COMPONENT24 GL_DEPTH_COMPONENT GL_UNSIGNED_INT
    GL_NEAREST GL_NEAREST st

/-- `ImPlot3D_ImplOpenGL3_CreateAccumTexture`: WBOIT accumulation texture
(RGBA16F). -/
def ImPlot3D_ImplOpenGL3_CreateAccumTexture (size : Int × Int) (st : Backend) :
    Nat × Backend :=
  CreateTexture size GL_RGBA16F GL_RGBA GL_FLOAT GL_LINEAR GL_LINEAR st

/-- `ImPlot3D_ImplOpenGL3_CreateRevealTexture`: WBOIT reveal texture (R16F). -/
def ImPlot3D_ImplOpenGL3_CreateRevealTexture (size : Int × Int) (st : Backend) :
    Nat × Backend :=
  CreateTexture size GL_R16F GL_RED GL_FLOAT GL_LINEAR GL_LINEAR st

/-- `ImPlot3D_ImplOpenGL3_DestroyTexture`: if the handle is non-zero,
deletes the GL texture object (`glDeleteTextures`) and removes the first
matching entry from the tracking vector (linear scan with `break`).
A zero handle, or a handle not present in the pool, is a no-op. -/
def ImPlot3D_ImplOpenGL3_DestroyTexture (tex_id : Nat) (st : Backend) :
    Backend :=
  if tex_id ≠ 0 then
    { st with
      texTable := st.texTable.filter (fun e => e.1 ≠ tex_id)
      createdTextures := st.createdTextures.erase tex_id }
  else
    st

/-- `ImPlot3D_ImplOpenGL3_Shutdown`: deletes the GL programs/buffers
(driver objects outside this model's texture table), deletes every
texture still tracked in `g_CreatedTextures`, clears the tracking
vector, and resets `g_Data` to its value-initialised default. -/
def ImPlot3D_ImplOpenGL3_Shutdown (st : Backend) : Backend :=
  let table := st.createdTextures.foldl
    (fun acc tid => acc.filter (fun e => e.1 ≠ tid)) st.texTable
  { st with
    data := ImPlot3D_ImplOpenGL3_Data.zero
    createdTextures := []
    texTable := table }

/-- `ImDrawVert3D`: a plot vertex — double-precision position plus a
packed 32-bit RGBA color.  Positions are modelled as rationals. -/
structure ImDrawVert3D where
  pos : Rat × Rat × Rat
  col : Nat
deriving DecidableEq

/-- `ImDrawData3DPlot`: the per-plot draw record consumed by
`ImPlot3D_ImplOpenGL3_RenderDrawData`.  `TextureSize` is an `ImVec2`
always used through `(int)` casts, so it is modelled as an integer
pair; `Rotation` is the camera quaternion (x, y, z, w). -/
structure ImDrawData3DPlot where
  TextureSize : Int × Int
  Rotation : Rat × Rat × Rat × Rat
  VtxBuffer : List ImDrawVert3D
  IdxBuffer : List Nat
  ColorTextureID : Nat
  DepthTextureID : Nat
  AccumTextureID : Nat
  RevealTextureID : Nat
  ShouldRender : Bool
  ShouldResize : Bool
  ShouldDelete : Bool
deriving DecidableEq

/-- Modelled from the spec: `ImDrawData3DPlot::ResetBuffers` is declared
in `implot3d_internal.h`, which is not among the provided sources; the
spec states that after a render pass "each record's vertex/index
buffers are truncated to empty" and that the pipeline "finally clears
the plot's transient vertex/index buffers for the next frame". -/
def ImDrawData3DPlot.ResetBuffers (p : ImDrawData3DPlot) : ImDrawData3DPlot :=
  { p with VtxBuffer := [], IdxBuffer := [] }

/-- The texture cleanup block of the deletion pass (lines 491–504 of the
WBOIT backend): destroy each of the four textures that is not the
invalid sentinel.  The same four guarded destroys open the resize block. -/
def destroyPlotTextures (p : ImDrawData3DPlot) (st : Backend) : Backend :=
  let st := if p.ColorTextureID ≠ ImTextureID_Invalid then
    ImPlot3D_ImplOpenGL3_DestroyTexture p.ColorTextureID st else st
  let st := if p.DepthTextureID ≠ ImTextureID_Invalid then
    ImPlot3D_ImplOpenGL3_DestroyTexture p.DepthTextureID st else st
  let st := if p.AccumTextureID ≠ ImTextureID_Invalid then
    ImPlot3D_ImplOpenGL3_DestroyTexture p.AccumTextureID st else st
  if p.RevealTextureID ≠ ImTextureID_Invalid then
    ImPlot3D_ImplOpenGL3_DestroyTexture p.RevealTextureID st else st

/-- First pass of `RenderDrawData`: iterate the record array from the
last index down to 0; for each record with `ShouldDelete`, destroy its
textures and erase it from the array.  The reverse in-place loop is
equivalent to this right-to-left recursion: the suffix is processed
first, then the head. -/
def deletePass : List ImDrawData3DPlot → Backend →
    List ImDrawData3DPlot × Backend
  | [], st => ([], st)
  | p :: rest, st =>
    let (rest2, st2) := deletePass rest st
    if p.ShouldDelete then
      (rest2, destroyPlotTextures p st2)
    else
      (p :: rest2, st2)

/-- Observable outcomes of the render pass for one plot, standing in
for the GL draw commands (which touch no modelled state): either the
framebuffer-completeness check failed and the plot was skipped, or
both WBOIT passes ran and wrote the plot's color texture. -/
inductive RenderEvent where
  | fbIncomplete (accumTex revealTex : Nat)
  | drawPlot (colorTex : Nat)
deriving DecidableEq

/-- The resize block of the render pass (lines 517–541): destroy the
old textures that exist (each handle is set to the invalid sentinel,
then immediately overwritten), and create the four new textures at the
record's current `TextureSize`.  `ShouldResize` is not written. -/
def resizePlotTextures (p : ImDrawData3DPlot) (st : Backend) :
    ImDrawData3DPlot × Backend :=
  let st := destroyPlotTextures p st
  let (color, st) := ImPlot3D_ImplOpenGL3_CreateRGBATexture p.TextureSize st
  let (depth, st) := ImPlot3D_ImplOpenGL3_CreateDepthTexture p.TextureSize st
  let (accum, st) := ImPlot3D_ImplOpenGL3_CreateAccumTexture p.TextureSize st
  let (reveal, st) := ImPlot3D_ImplOpenGL3_CreateRevealTexture p.TextureSize st
  ({ p with
      ColorTextureID := color
      DepthTextureID := depth
      AccumTextureID := accum
      RevealTextureID := reveal }, st)

/-- One iteration of the second (render) pass of `RenderDrawData` for a
single record.  `fbOk` is the oracle outcome of
`glCheckFramebufferStatus` for this plot's attachment combination.
Mirrors the `continue` chain of the loop body: skip when
`!ShouldRender`; run the resize block when `ShouldResize`; skip when
the color/accum/reveal handles are zero; skip when the vertex or index
buffer is empty; report and skip when the framebuffer is incomplete;
otherwise run the accumulate and composite passes (emitting a
`drawPlot` event for the plot's color texture). -/
def renderPlotStep (fbOk : Bool) (p : ImDrawData3DPlot) (st : Backend) :
    ImDrawData3DPlot × Backend × List RenderEvent :=
  if ¬ p.ShouldRender then
    (p, st, [])
  else
    let (p, st) := if p.ShouldResize then resizePlotTextures p st else (p, st)
    if p.ColorTextureID = 0 ∨ p.AccumTextureID = 0 ∨ p.RevealTextureID = 0 then
      (p, st, [])
    else if p.VtxBuffer.length = 0 ∨ p.IdxBuffer.length = 0 then
      (p, st, [])
    else if ¬ fbOk then
      (p, st, [.fbIncomplete p.AccumTextureID p.RevealTextureID])
    else
      (p, st, [.drawPlot p.ColorTextureID])

/-- Second pass of `RenderDrawData`: process the surviving records in
order, indexing the framebuffer-status oracle by position. -/
def renderPass (fbOk : Nat → Bool) : Nat → List ImDrawData3DPlot → Backend →
    List ImDrawData3DPlot × Backend × List RenderEvent
  | _, [], st => ([], st, [])
  | i, p :: rest, st =>
    let (p2, st2, evs) := renderPlotStep (fbOk i) p st
    let (rest2, st3, evs2) := renderPass fbOk (i + 1) rest st2
    (p2 :: rest2, st3, evs ++ evs2)

/-- `ImPlot3D_ImplOpenGL3_RenderDrawData`: deletion pass, render pass,
then the buffer-reset pass over every remaining record.  The
`draw_data == nullptr` early return is a caller-contract guard outside
this value-level model. -/
def ImPlot3D_ImplOpenGL3_RenderDrawData (fbOk : Nat → Bool)
    (plotData : List ImDrawData3DPlot) (st : Backend) :
    List ImDrawData3DPlot × Backend × List RenderEvent :=
  let (plots1, st1) := deletePass plotData st
  let (plots2, st2, evs) := renderPass fbOk 0 plots1 st1
  (plots2.map ImDrawData3DPlot.ResetBuffers, st2, evs)

/-- Well-formedness of the reachable backend states: the tracking pool
has no duplicate handles, every tracked handle and every GL texture
object name is non-zero and below the allocator counter, and the
counter is positive (GL never generates the name `0`). -/
def Backend.WF (st : Backend) : Prop :=
  st.createdTextures.Nodup ∧
  (∀ t ∈ st.createdTextures, 0 < t ∧ t < st.nextTexId) ∧
  (∀ e ∈ st.texTable, 0 < e.1 ∧ e.1 < st.nextTexId) ∧
  0 < st.nextTexId

/-- The plot's texture handles are either the invalid sentinel or
tracked by the pool (the state every record reaches through the
backend's own create/destroy discipline). -/
def PlotTexTracked (st : Backend) (p : ImDrawData3DPlot) : Prop :=
  ∀ t ∈ [p.ColorTextureID, p.DepthTextureID, p.AccumTextureID,
    p.RevealTextureID], t ≠ 0 → t ∈ st.createdTextures

instance (st : Backend) : Decidable st.WF := by
  unfold Backend.WF
  infer_instance

instance (st : Backend) (p : ImDrawData3DPlot) :
    Decidable (PlotTexTracked st p) := by
  unfold PlotTexTracked
  infer_instance

/-- Size of the GL texture object named `id`, read from the driver
table (the width/height passed to `glTexImage2D` at creation). -/
def texSizeOf (st : Backend) (id : Nat) : Option (Int × Int) :=
  (st.texTable.find? (fun e => e.1 = id)).map (fun e => e.2)

/-! ### WBOIT fragment shaders

The accumulate and composite fragment shaders (`g_FragmentShaderSource`
and `g_CompositeFragmentShaderSource`) are pure per-fragment functions;
their GLSL float arithmetic is idealised over the reals. -/

/-- A GLSL `vec4` holding an RGBA color. -/
structure Vec4 where
  r : ℝ
  g : ℝ
  b : ℝ
  a : ℝ

/-- GLSL `clamp(x, lo, hi) = min(max(x, lo), hi)`. -/
noncomputable def glslClamp (x lo hi : ℝ) : ℝ := min (max x lo) hi

/-- The WBOIT accumulate fragment shader (`g_FragmentShaderSource`):
from the interpolated color and depth, produce the value written to
`gl_FragData[0]` (the accumulation attachment) and the value written to
`gl_FragData[1]` (the reveal attachment, an R16F target keeping only
the first component of `vec4(color.a)`). -/
noncomputable def accumFragmentShader (color : Vec4) (fragDepth : ℝ) :
    Vec4 × ℝ :=
  let z := (fragDepth + 1.0) * 0.5
  let weight := color.a * glslClamp (0.03 / (1e-5 + (z / 200.0) ^ 4)) 1e-2 3e3
  (⟨color.r * weight, color.g * weight, color.b * weight, weight⟩, color.a)

/-- The WBOIT composite fragment shader
(`g_CompositeFragmentShaderSource`): given the sampled accumulation
texel and reveal value, `none` models `discard` (pixel left
transparent); otherwise the fragment written to `gl_FragColor`. -/
noncomputable def compositeFragmentShader (accum : Vec4) (reveal : ℝ) :
    Option Vec4 :=
  if accum.a < 0.00001 then
    none
  else
    some ⟨accum.r / accum.a, accum.g / accum.a, accum.b / accum.a,
      Real.sqrt (glslClamp reveal 0.0 1.0)⟩

/-- The accumulate fragment contribution as the spec's words describe
it: "`weight = alpha * clamp(smallConstant / (tinyEpsilon +
(normalizedDepth/largeConstant)^4), lowerBound, upperBound)`, writes
`(color.rgb * weight, weight)` to the accumulation output and
`color.alpha` to the reveal output", with the claim's constants
`smallConstant = 0.03`, `tinyEpsilon = 1e-5`, `largeConstant = 200`,
`lowerBound = 1e-2`, `upperBound = 3e3`, and the normalized depth
mapped from `[-1, 1]` to `[0, 1]`. -/
noncomputable def spec_accumFragment (color : Vec4) (fragDepth : ℝ) :
    Vec4 × ℝ :=
  let normalizedDepth := (fragDepth - (-1)) / (1 - (-1))
  let weight := color.a *
    glslClamp (0.03 / (1e-5 + (normalizedDepth / 200) ^ 4)) 1e-2 3e3
  (⟨color.r * weight, color.g * weight, color.b * weight, weight⟩, color.a)

/-- The composite pass as the spec's words describe it: "discard (leave
transparent) any pixel with negligible accumulated alpha; otherwise
divide accumulated color by accumulated weight to recover an average
color, derive output alpha as the square root of the clamped reveal
value", with the negligible-alpha threshold left as a parameter. -/
noncomputable def spec_compositeFragment (threshold : ℝ) (accum : Vec4)
    (reveal : ℝ) : Option Vec4 :=
  if accum.a < threshold then
    none
  else
    some ⟨accum.r / accum.a, accum.g / accum.a, accum.b / accum.a,
      Real.sqrt (glslClamp reveal 0 1)⟩

/-! ### Supporting lemmas -/

theorem destroyTexture_zero (st : Backend) :
    ImPlot3D_ImplOpenGL3_DestroyTexture 0 st = st := by
  simp [ImPlot3D_ImplOpenGL3_DestroyTexture]

theorem ite_destroy (h : Nat) (st : Backend) :
    (if h ≠ ImTextureID_Invalid then
      ImPlot3D_ImplOpenGL3_DestroyTexture h st else st) =
    ImPlot3D_ImplOpenGL3_DestroyTexture h st := by
  by_cases hh : h = 0
  · simp [hh, ImTextureID_Invalid, destroyTexture_zero]
  · simp [hh, ImTextureID_Invalid]

/-- The guards in the cleanup blocks are redundant with the guard inside
`DestroyTexture`, so the cleanup is the plain composition of the four
destroys. -/
theorem destroyPlotTextures_eq (p : ImDrawData3DPlot) (st : Backend) :
    destroyPlotTextures p st =
      ImPlot3D_ImplOpenGL3_DestroyTexture p.RevealTextureID
        (ImPlot3D_ImplOpenGL3_DestroyTexture p.AccumTextureID
          (ImPlot3D_ImplOpenGL3_DestroyTexture p.DepthTextureID
            (ImPlot3D_ImplOpenGL3_DestroyTexture p.ColorTextureID st))) := by
  simp only [destroyPlotTextures, ite_destroy]

theorem destroy_nextTexId (h : Nat) (st : Backend) :
    (ImPlot3D_ImplOpenGL3_DestroyTexture h st).nextTexId = st.nextTexId := by
  unfold ImPlot3D_ImplOpenGL3_DestroyTexture
  split <;> rfl

theorem destroy_data (h : Nat) (st : Backend) :
    (ImPlot3D_ImplOpenGL3_DestroyTexture h st).data = st.data := by
  unfold ImPlot3D_ImplOpenGL3_DestroyTexture
  split <;> rfl

theorem destroy_created_sublist (h : Nat) (st : Backend) :
    List.Sublist (ImPlot3D_ImplOpenGL3_DestroyTexture h st).createdTextures
      st.createdTextures := by
  unfold ImPlot3D_ImplOpenGL3_DestroyTexture
  split
  · exact List.erase_sublist _ _
  · exact List.Sublist.refl _

theorem destroy_not_mem (h : Nat) (st : Backend) (t : Nat)
    (ht : t ∉ st.createdTextures) :
    t ∉ (ImPlot3D_ImplOpenGL3_DestroyTexture h st).createdTextures :=
  fun hmem => ht ((destroy_created_sublist h st).subset hmem)

theorem destroy_self_not_mem (h : Nat) (st : Backend)
    (hnd : st.createdTextures.Nodup) (hh : h ≠ 0) :
    h ∉ (ImPlot3D_ImplOpenGL3_DestroyTexture h st).createdTextures := by
  unfold ImPlot3D_ImplOpenGL3_DestroyTexture
  simp only [hh, ne_eq, not_false_eq_true, if_true]
  exact hnd.not_mem_erase

theorem destroyPlot_nextTexId (p : ImDrawData3DPlot) (st : Backend) :
    (destroyPlotTextures p st).nextTexId = st.nextTexId := by
  simp [destroyPlotTextures_eq, destroy_nextTexId]

theorem destroyPlot_data (p : ImDrawData3DPlot) (st : Backend) :
    (destroyPlotTextures p st).data = st.data := by
  simp [destroyPlotTextures_eq, destroy_data]

theorem destroyPlot_created_sublist (p : ImDrawData3DPlot) (st : Backend) :
    List.Sublist (destroyPlotTextures p st).createdTextures
      st.createdTextures := by
  rw [destroyPlotTextures_eq]
  exact ((destroy_created_sublist _ _).trans
    ((destroy_created_sublist _ _).trans
      ((destroy_created_sublist _ _).trans (destroy_created_sublist _ _))))

theorem destroyPlot_not_mem (p : ImDrawData3DPlot) (st : Backend) (t : Nat)
    (ht : t ∉ st.createdTextures) :
    t ∉ (destroyPlotTextures p st).createdTextures :=
  fun hmem => ht ((destroyPlot_created_sublist p st).subset hmem)

/-- With a duplicate-free pool, the cleanup block removes every one of
the record's non-sentinel texture handles from the pool. -/
theorem destroyPlot_removes (p : ImDrawData3DPlot) (st : Backend)
    (hnd : st.createdTextures.Nodup) (t : Nat)
    (hmem : t ∈ [p.ColorTextureID, p.DepthTextureID, p.AccumTextureID,
      p.RevealTextureID]) (ht : t ≠ 0) :
    t ∉ (destroyPlotTextures p st).createdTextures := by
  rw [destroyPlotTextures_eq]
  set st1 := ImPlot3D_ImplOpenGL3_DestroyTexture p.ColorTextureID st with hs1
  set st2 := ImPlot3D_ImplOpenGL3_DestroyTexture p.DepthTextureID st1 with hs2
  set st3 := ImPlot3D_ImplOpenGL3_DestroyTexture p.AccumTextureID st2 with hs3
  have hnd1 : st1.createdTextures.Nodup :=
    (destroy_created_sublist p.ColorTextureID st).nodup hnd
  have hnd2 : st2.createdTextures.Nodup :=
    (destroy_created_sublist p.DepthTextureID st1).nodup hnd1
  have hnd3 : st3.createdTextures.Nodup :=
    (destroy_created_sublist p.AccumTextureID st2).nodup hnd2
  simp only [List.mem_cons, List.not_mem_nil, or_false] at hmem
  rcases hmem with h | h | h | h
  · subst h
    exact destroy_not_mem _ _ _ (destroy_not_mem _ _ _
      (destroy_not_mem _ _ _ (destroy_self_not_mem _ _ hnd ht)))
  · subst h
    exact destroy_not_mem _ _ _ (destroy_not_mem _ _ _
      (destroy_self_not_mem _ _ hnd1 ht))
  · subst h
    exact destroy_not_mem _ _ _ (destroy_self_not_mem _ _ hnd2 ht)
  · subst h
    exact destroy_self_not_mem _ _ hnd3 ht

/-- The deletion pass keeps exactly the records not marked for
deletion, in order. -/
theorem deletePass_fst (l : List ImDrawData3DPlot) (st : Backend) :
    (deletePass l st).1 = l.filter (fun q => !q.ShouldDelete) := by
  induction l generalizing st with
  | nil => rfl
  | cons p rest ih =>
    simp only [deletePass, List.filter_cons]
    by_cases hp : p.ShouldDelete <;> simp [hp, ih]

theorem deletePass_created_sublist (l : List ImDrawData3DPlot)
    (st : Backend) :
    List.Sublist (deletePass l st).2.createdTextures st.createdTextures := by
  induction l generalizing st with
  | nil => exact List.Sublist.refl _
  | cons p rest ih =>
    simp only [deletePass]
    by_cases hp : p.ShouldDelete
    · simp only [hp, if_true]
      exact (destroyPlot_created_sublist _ _).trans (ih st)
    · simp only [hp, if_false]
      exact ih st

/-- After the deletion pass, no texture of any record marked
`ShouldDelete` is still tracked by the pool. -/
theorem deletePass_removes (l : List ImDrawData3DPlot) (st : Backend)
    (hnd : st.createdTextures.Nodup) (p : ImDrawData3DPlot) (hp : p ∈ l)
    (hd : p.ShouldDelete = true) (t : Nat)
    (hmem : t ∈ [p.ColorTextureID, p.DepthTextureID, p.AccumTextureID,
      p.RevealTextureID]) (ht : t ≠ 0) :
    t ∉ (deletePass l st).2.createdTextures := by
  induction l generalizing st with
  | nil => cases hp
  | cons q rest ih =>
    simp only [deletePass]
    rcases List.mem_cons.mp hp with hq | hq
    · subst hq
      simp only [hd, if_true]
      exact destroyPlot_removes p _ ((deletePass_created_sublist rest st).nodup hnd)
        t hmem ht
    · by_cases hqd : q.ShouldDelete
      · simp only [hqd, if_true]
        exact destroyPlot_not_mem _ _ _ (ih st hnd hq)
      · simp only [hqd, if_false]
        exact ih st hnd hq

theorem find?_append_of_none {α : Type} (f : α → Bool) (l1 l2 : List α)
    (h : ∀ x ∈ l1, f x = false) : (l1 ++ l2).find? f = l2.find? f := by
  induction l1 with
  | nil => rfl
  | cons a l ih =>
    have ha : f a = false := h a (by simp)
    simp only [List.cons_append, List.find?, ha]
    exact ih (fun x hx => h x (by simp [hx]))

/-- `CreateTexture` on a positive size: the fresh name is the allocator
counter, and both the pool and the driver table grow by that entry. -/
theorem createTexture_pos (size : Int × Int)
    (i f t mn mg : Nat) (st : Backend)
    (hw : 0 < size.1) (hh : 0 < size.2) :
    CreateTexture size i f t mn mg st =
      (st.nextTexId,
        { st with
          nextTexId := st.nextTexId + 1
          createdTextures := st.createdTextures ++ [st.nextTexId]
          texTable := st.texTable ++ [(st.nextTexId, size.1, size.2)] }) := by
  have hcond : ¬(size.1 ≤ 0 ∨ size.2 ≤ 0) := by omega
  simp [CreateTexture, hcond]

/-- The resize block on a positive size: the old textures are destroyed
and the four fresh names `n, n+1, n+2, n+3` (with `n` the allocator
counter) are created at the record's current size; no flag changes. -/
theorem resizePlotTextures_spec (p : ImDrawData3DPlot) (st : Backend)
    (hw : 0 < p.TextureSize.1) (hh : 0 < p.TextureSize.2) :
    resizePlotTextures p st =
      ({ p with
          ColorTextureID := st.nextTexId
          DepthTextureID := st.nextTexId + 1
          AccumTextureID := st.nextTexId + 2
          RevealTextureID := st.nextTexId + 3 },
        { data := (destroyPlotTextures p st).data
          nextTexId := st.nextTexId + 4
          createdTextures := (destroyPlotTextures p st).createdTextures ++
            [st.nextTexId, st.nextTexId + 1, st.nextTexId + 2,
              st.nextTexId + 3]
          texTable := (destroyPlotTextures p st).texTable ++
            [(st.nextTexId, p.TextureSize.1, p.TextureSize.2),
              (st.nextTexId + 1, p.TextureSize.1, p.TextureSize.2),
              (st.nextTexId + 2, p.TextureSize.1, p.TextureSize.2),
              (st.nextTexId + 3, p.TextureSize.1, p.TextureSize.2)] }) := by
  simp only [resizePlotTextures, ImPlot3D_ImplOpenGL3_CreateRGBATexture,
    ImPlot3D_ImplOpenGL3_CreateDepthTexture,
    ImPlot3D_ImplOpenGL3_CreateAccumTexture,
    ImPlot3D_ImplOpenGL3_CreateRevealTexture]
  rw [createTexture_pos _ _ _ _ _ _ _ hw hh]
  simp only [destroyPlot_nextTexId]
  rw [createTexture_pos _ _ _ _ _ _ _ hw hh]
  simp only []
  rw [createTexture_pos _ _ _ _ _ _ _ hw hh]
  simp only []
  rw [createTexture_pos _ _ _ _ _ _ _ hw hh]
  simp [List.append_assoc]

/-- With `ShouldRender` and `ShouldResize` both set, the record and
backend produced by a render-pass iteration are exactly those of the
resize block (the later checks only choose events). -/
theorem renderPlotStep_resize (fb : Bool) (p : ImDrawData3DPlot)
    (st : Backend) (hr : p.ShouldRender = true)
    (hrs : p.ShouldResize = true) :
    (renderPlotStep fb p st).1 = (resizePlotTextures p st).1 ∧
    (renderPlotStep fb p st).2.1 = (resizePlotTextures p st).2 := by
  rcases hres : resizePlotTextures p st with ⟨p2, st2⟩
  simp only [renderPlotStep, hr, hrs, Bool.not_true, if_true, hres]
  constructor <;>
    · split <;> (try split) <;> (try split) <;> (try split) <;>
        first | rfl | simp_all

/-- With `ShouldRender` set and `ShouldResize` clear, a render-pass
iteration leaves the record and the backend untouched. -/
theorem renderPlotStep_norsz (fb : Bool) (p : ImDrawData3DPlot)
    (st : Backend) (hr : p.ShouldRender = true)
    (hrs : p.ShouldResize = false) :
    (renderPlotStep fb p st).1 = p ∧ (renderPlotStep fb p st).2.1 = st := by
  simp only [renderPlotStep, hr, hrs, Bool.not_true, if_true, Bool.false_eq_true,
    if_false]
  constructor <;>
    · split <;> (try split) <;> (try split) <;> (try split) <;>
        first | rfl | simp_all

/-- With `ShouldRender` clear, a render-pass iteration is a complete
no-op: record, backend and events are untouched. -/
theorem renderPlotStep_skip (fb : Bool) (p : ImDrawData3DPlot)
    (st : Backend) (hr : p.ShouldRender = false) :
    renderPlotStep fb p st = (p, st, []) := by
  simp [renderPlotStep, hr]

/-- A render-pass iteration never changes the lifecycle flags, the
requested size, or the geometry buffers of the record. -/
theorem renderPlotStep_fields (fb : Bool) (p : ImDrawData3DPlot)
    (st : Backend) :
    (renderPlotStep fb p st).1.ShouldRender = p.ShouldRender ∧
    (renderPlotStep fb p st).1.ShouldResize = p.ShouldResize ∧
    (renderPlotStep fb p st).1.ShouldDelete = p.ShouldDelete ∧
    (renderPlotStep fb p st).1.TextureSize = p.TextureSize ∧
    (renderPlotStep fb p st).1.VtxBuffer = p.VtxBuffer ∧
    (renderPlotStep fb p st).1.IdxBuffer = p.IdxBuffer := by
  rcases hres : resizePlotTextures p st with ⟨p2, st2⟩
  have hp2 : p2.ShouldRender = p.ShouldRender ∧
      p2.ShouldResize = p.ShouldResize ∧
      p2.ShouldDelete = p.ShouldDelete ∧
      p2.TextureSize = p.TextureSize ∧
      p2.VtxBuffer = p.VtxBuffer ∧
      p2.IdxBuffer = p.IdxBuffer := by
    have : p2 = (resizePlotTextures p st).1 := by rw [hres]
    subst this
    simp [resizePlotTextures]
  simp only [renderPlotStep, hres]
  split
  · simp
  · split <;> (try split) <;> (try split) <;> (try split) <;> simp_all

theorem filter_idem {α : Type} (f : α → Bool) (l : List α) :
    (l.filter f).filter f = l.filter f := by
  induction l with
  | nil => rfl
  | cons a l ih =>
    by_cases hf : f a <;> simp [List.filter_cons, hf, ih]

theorem renderDrawData_unfold (fbOk : Nat → Bool)
    (plots : List ImDrawData3DPlot) (st : Backend) :
    ImPlot3D_ImplOpenGL3_RenderDrawData fbOk plots st =
      ((renderPass fbOk 0 (deletePass plots st).1
          (deletePass plots st).2).1.map ImDrawData3DPlot.ResetBuffers,
        (renderPass fbOk 0 (deletePass plots st).1 (deletePass plots st).2).2.1,
        (renderPass fbOk 0 (deletePass plots st).1
          (deletePass plots st).2).2.2) := by
  rcases h1 : deletePass plots st with ⟨l1, s1⟩
  rcases h2 : renderPass fbOk 0 l1 s1 with ⟨l2, s2, evs⟩
  simp [ImPlot3D_ImplOpenGL3_RenderDrawData, h1, h2]

/-- Every record coming out of the render pass is some input record with
its texture handles possibly replaced; the lifecycle flags are those of
the corresponding input record. -/
theorem renderPass_flags (fbOk : Nat → Bool) (i : Nat)
    (l : List ImDrawData3DPlot) (st : Backend) :
    ∀ q ∈ (renderPass fbOk i l st).1, ∃ x ∈ l,
      q.ShouldDelete = x.ShouldDelete := by
  induction l generalizing i st with
  | nil => intro q hq; cases hq
  | cons p rest ih =>
    intro q hq
    rcases hstep : renderPlotStep (fbOk i) p st with ⟨p2, st2, evs⟩
    rcases hrest : renderPass fbOk (i + 1) rest st2 with ⟨l2, st3, evs2⟩
    simp only [renderPass, hstep, hrest, List.mem_cons] at hq
    rcases hq with hq | hq
    · refine ⟨p, by simp, ?_⟩
      have hfl := (renderPlotStep_fields (fbOk i) p st).2.2.1
      rw [hstep] at hfl
      simp only [Prod.fst] at hfl
      simp [hq, hfl]
    · obtain ⟨x, hx, hflag⟩ := ih (i + 1) st2 q (by rw [hrest]; exact hq)
      exact ⟨x, by simp [hx], hflag⟩

/-- A record whose buffers are already empty is a fixed point of the
buffer reset. -/
theorem resetBuffers_self (r : ImDrawData3DPlot) (h5 : r.VtxBuffer = [])
    (h6 : r.IdxBuffer = []) : r.ResetBuffers = r := by
  cases r
  simp_all [ImDrawData3DPlot.ResetBuffers]

/-! ### Concrete fixtures used by witnesses and counterexamples -/

/-- A small well-formed backend: four live textures of size 2×2. -/
def stW : Backend :=
  ⟨ImPlot3D_ImplOpenGL3_Data.zero, 5, [1, 2, 3, 4],
    [(1, 2, 2), (2, 2, 2), (3, 2, 2), (4, 2, 2)]⟩

/-- An uninitialized record: visible, not resizing, no textures. -/
def plotC2 : ImDrawData3DPlot :=
  ⟨(256, 256), (0, 0, 0, 1), [], [], 0, 0, 0, 0, true, false, false⟩

/-- A visible, resizing record owning the four textures of `stW`. -/
def plotC3 : ImDrawData3DPlot :=
  ⟨(2, 2), (0, 0, 0, 1), [], [], 1, 2, 3, 4, true, true, false⟩

/-- A record marked for deletion, owning the four textures of `stW`. -/
def plotC1 : ImDrawData3DPlot :=
  ⟨(2, 2), (0, 0, 0, 1), [], [], 1, 2, 3, 4, true, false, true⟩

/-- A Ready record with empty geometry buffers (the C9 scenario). -/
def plotC9 : ImDrawData3DPlot :=
  ⟨(256, 256), (0, 0, 0, 1), [], [], 1, 2, 3, 4, true, false, false⟩

/-- A hidden record with a pending resize (the C10 scenario). -/
def plotC10 : ImDrawData3DPlot :=
  ⟨(7, 9), (0, 0, 0, 1), [], [], 1, 2, 3, 4, false, true, false⟩

/-! ### Claim theorems -/

/-- C5: `CreateTexture` returns the invalid sentinel iff the requested
width or height is non-positive; on a positive size it returns a fresh
handle distinct from `invalid` and from every live handle and appends
it to the resource pool; on a non-positive size the backend state — in
particular the pool's tracked-count — is unchanged. -/
theorem C5_createTexture_contract (size : Int × Int) (i f t mn mg : Nat)
    (st : Backend) (hWF : st.WF) :
    ((CreateTexture size i f t mn mg st).1 = ImTextureID_Invalid ↔
      size.1 ≤ 0 ∨ size.2 ≤ 0) ∧
    (0 < size.1 → 0 < size.2 →
      (CreateTexture size i f t mn mg st).1 ∉ st.createdTextures ∧
      (CreateTexture size i f t mn mg st).2.createdTextures =
        st.createdTextures ++ [(CreateTexture size i f t mn mg st).1]) ∧
    ((size.1 ≤ 0 ∨ size.2 ≤ 0) →
      CreateTexture size i f t mn mg st = (ImTextureID_Invalid, st)) := by
  obtain ⟨hnd, hbound, htbl, hpos⟩ := hWF
  by_cases hc : size.1 ≤ 0 ∨ size.2 ≤ 0
  · refine ⟨?_, ?_, ?_⟩
    · simp [CreateTexture, hc]
    · intro hw hh; omega
    · intro _; simp [CreateTexture, hc]
  · have hw : 0 < size.1 := by omega
    have hh : 0 < size.2 := by omega
    rw [createTexture_pos _ _ _ _ _ _ _ hw hh]
    refine ⟨?_, ?_, fun h0 => absurd h0 hc⟩
    · simp only [ImTextureID_Invalid]
      exact iff_of_false (show ¬(st.nextTexId = 0) by omega) hc
    · intro _ _
      refine ⟨fun hmem => Nat.lt_irrefl _ ((hbound _ hmem).2), rfl⟩

/-- Witness for C5 at the concrete size `(3, 2)` on the backend `stW`. -/
theorem C5_witness :
    stW.WF ∧
    (((CreateTexture (3, 2) 0 0 0 0 0 stW).1 = ImTextureID_Invalid ↔
      (3 : Int) ≤ 0 ∨ (2 : Int) ≤ 0) ∧
    ((0 : Int) < 3 → (0 : Int) < 2 →
      (CreateTexture (3, 2) 0 0 0 0 0 stW).1 ∉ stW.createdTextures ∧
      (CreateTexture (3, 2) 0 0 0 0 0 stW).2.createdTextures =
        stW.createdTextures ++ [(CreateTexture (3, 2) 0 0 0 0 0 stW).1]) ∧
    (((3 : Int) ≤ 0 ∨ (2 : Int) ≤ 0) →
      CreateTexture (3, 2) 0 0 0 0 0 stW = (ImTextureID_Invalid, stW))) :=
  ⟨by decide, C5_createTexture_contract (3, 2) 0 0 0 0 0 stW (by decide)⟩

/-- C6: releasing the same handle twice in succession leaves the
resource pool (indeed the whole backend state) exactly as one release
does; releasing an untracked or sentinel handle is a no-op. -/
theorem C6_release_idempotent (h : Nat) (st : Backend)
    (hnd : st.createdTextures.Nodup) :
    ImPlot3D_ImplOpenGL3_DestroyTexture h
        (ImPlot3D_ImplOpenGL3_DestroyTexture h st) =
      ImPlot3D_ImplOpenGL3_DestroyTexture h st := by
  by_cases hh : h = 0
  · simp [hh, destroyTexture_zero]
  · have hout : h ∉ (ImPlot3D_ImplOpenGL3_DestroyTexture h
        st).createdTextures := destroy_self_not_mem h st hnd hh
    conv_lhs =>
      rw [ImPlot3D_ImplOpenGL3_DestroyTexture]
    simp only [hh, ne_eq, not_false_eq_true, if_true]
    rw [List.erase_of_not_mem hout]
    conv_lhs =>
      rw [show (ImPlot3D_ImplOpenGL3_DestroyTexture h st).texTable =
        st.texTable.filter (fun e => e.1 ≠ h) by
          simp [ImPlot3D_ImplOpenGL3_DestroyTexture, hh]]
    rw [filter_idem]
    rcases hds : ImPlot3D_ImplOpenGL3_DestroyTexture h st with ⟨d, n, c, tb⟩
    have h1 : tb = st.texTable.filter (fun e => e.1 ≠ h) := by
      rw [show tb = (ImPlot3D_ImplOpenGL3_DestroyTexture h st).texTable by
        rw [hds]]
      simp [ImPlot3D_ImplOpenGL3_DestroyTexture, hh]
    simp [h1]

/-- Witness for C6 on a pool actually containing the handle `2`. -/
theorem C6_witness :
    stW.createdTextures.Nodup ∧
    ImPlot3D_ImplOpenGL3_DestroyTexture 2
        (ImPlot3D_ImplOpenGL3_DestroyTexture 2 stW) =
      ImPlot3D_ImplOpenGL3_DestroyTexture 2 stW :=
  ⟨by decide, C6_release_idempotent 2 stW (by decide)⟩

/-- C7: after `Shutdown`, the pool tracks no textures (count zero, for
any number previously live) and `g_Data` is back to its
value-initialised pre-`Init` default, so `Init` can run afresh. -/
theorem C7_shutdown_resets (st : Backend) :
    (ImPlot3D_ImplOpenGL3_Shutdown st).createdTextures = [] ∧
    (ImPlot3D_ImplOpenGL3_Shutdown st).data =
      ImPlot3D_ImplOpenGL3_Data.zero := by
  exact ⟨rfl, rfl⟩

/-- C1: the deletion pass removes every `ShouldDelete` record before the
render pass runs — the render pass consumes exactly the records not
marked for deletion, no record of the final list is a to-be-deleted one
(so such a record is never rendered), and every allocated (non-sentinel)
texture of a deleted record is gone from the resource pool before any
resize/render processing starts. -/
theorem C1_delete_wins (fbOk : Nat → Bool) (plots : List ImDrawData3DPlot)
    (st : Backend) (hnd : st.createdTextures.Nodup) (p : ImDrawData3DPlot)
    (hp : p ∈ plots) (hd : p.ShouldDelete = true) :
    (deletePass plots st).1 = plots.filter (fun q => !q.ShouldDelete) ∧
    (∀ t ∈ [p.ColorTextureID, p.DepthTextureID, p.AccumTextureID,
        p.RevealTextureID], t ≠ 0 →
      t ∉ (deletePass plots st).2.createdTextures) ∧
    (∀ q ∈ (ImPlot3D_ImplOpenGL3_RenderDrawData fbOk plots st).1,
      q.ShouldDelete = false) := by
  refine ⟨deletePass_fst plots st, ?_, ?_⟩
  · intro t hmem ht
    exact deletePass_removes plots st hnd p hp hd t hmem ht
  · intro q hq
    rw [renderDrawData_unfold] at hq
    simp only [List.mem_map] at hq
    obtain ⟨x, hx, rfl⟩ := hq
    obtain ⟨y, hy, hflag⟩ := renderPass_flags fbOk 0 (deletePass plots st).1
      (deletePass plots st).2 x hx
    rw [deletePass_fst] at hy
    have hyd : y.ShouldDelete = false := by
      have := List.of_mem_filter hy
      simpa using this
    show x.ShouldDelete = false
    rw [hflag, hyd]

/-- Witness for C1: the deleted record `plotC1` among two records. -/
theorem C1_witness :
    stW.createdTextures.Nodup ∧ plotC1 ∈ [plotC1, plotC9] ∧
    plotC1.ShouldDelete = true ∧
    ((deletePass [plotC1, plotC9] stW).1 =
      [plotC1, plotC9].filter (fun q => !q.ShouldDelete) ∧
    (∀ t ∈ [plotC1.ColorTextureID, plotC1.DepthTextureID,
        plotC1.AccumTextureID, plotC1.RevealTextureID], t ≠ 0 →
      t ∉ (deletePass [plotC1, plotC9] stW).2.createdTextures) ∧
    (∀ q ∈ (ImPlot3D_ImplOpenGL3_RenderDrawData (fun _ => true)
        [plotC1, plotC9] stW).1, q.ShouldDelete = false)) :=
  ⟨by decide, by decide, by decide,
    C1_delete_wins (fun _ => true) [plotC1, plotC9] stW (by decide) plotC1
      (by decide) (by decide)⟩

/-- C8: after `RenderDrawData`, every record still in the list has both
geometry buffers truncated to empty, rendered or not.  (`ResetBuffers`
is modelled from the spec: its body is not among the provided sources.) -/
theorem C8_buffers_reset (fbOk : Nat → Bool)
    (plots : List ImDrawData3DPlot) (st : Backend) :
    ∀ q ∈ (ImPlot3D_ImplOpenGL3_RenderDrawData fbOk plots st).1,
      q.VtxBuffer = [] ∧ q.IdxBuffer = [] := by
  intro q hq
  rw [renderDrawData_unfold] at hq
  simp only [List.mem_map] at hq
  obtain ⟨x, _, rfl⟩ := hq
  exact ⟨rfl, rfl⟩

/-- Witness for C8: a surviving record of a concrete frame has empty
buffers after the call. -/
theorem C8_witness :
    plotC9.ResetBuffers ∈ (ImPlot3D_ImplOpenGL3_RenderDrawData
      (fun _ => true) [plotC9] stW).1 ∧
    plotC9.ResetBuffers.VtxBuffer = [] ∧
    plotC9.ResetBuffers.IdxBuffer = [] :=
  ⟨by decide, C8_buffers_reset (fun _ => true) [plotC9] stW
    plotC9.ResetBuffers (by decide)⟩

/-- C9: a Ready record with the scenario's size and flags but empty
geometry buffers passes through `RenderDrawData` untouched: no
framebuffer-completeness check is ever reached (the event list is empty
for every oracle), nothing is drawn to — or even attached to — its
color texture (the backend state is unchanged, so its cleared contents
persist), and the call completes normally. -/
theorem C9_empty_geometry_noop (fbOk : Nat → Bool) (r : ImDrawData3DPlot)
    (st : Backend) (h1 : r.ShouldRender = true) (h2 : r.ShouldResize = false)
    (h3 : r.ShouldDelete = false) (h4 : r.TextureSize = (256, 256))
    (h5 : r.VtxBuffer = []) (h6 : r.IdxBuffer = [])
    (h7 : r.ColorTextureID ≠ 0) (h8 : r.AccumTextureID ≠ 0)
    (h9 : r.RevealTextureID ≠ 0) :
    ImPlot3D_ImplOpenGL3_RenderDrawData fbOk [r] st = ([r], st, []) := by
  have hdel : deletePass [r] st = ([r], st) := by
    simp [deletePass, h3]
  have hstep : renderPlotStep (fbOk 0) r st = (r, st, []) := by
    simp [renderPlotStep, h1, h2, h5, h6, h7, h8, h9]
  rcases hrd : ImPlot3D_ImplOpenGL3_RenderDrawData fbOk [r] st with ⟨l, s, e⟩
  rw [renderDrawData_unfold, hdel] at hrd
  simp only [renderPass, hstep, Prod.mk.injEq, List.map_cons, List.map_nil,
    List.nil_append] at hrd
  obtain ⟨hl, hs, he⟩ := hrd
  rw [← hl, ← hs, ← he]
  simp [resetBuffers_self r h5 h6]

/-- Witness for C9 at the concrete scenario record `plotC9`. -/
theorem C9_witness :
    (plotC9.ShouldRender = true ∧ plotC9.ShouldResize = false ∧
      plotC9.ShouldDelete = false ∧ plotC9.TextureSize = (256, 256) ∧
      plotC9.VtxBuffer = [] ∧ plotC9.IdxBuffer = [] ∧
      plotC9.ColorTextureID ≠ 0 ∧ plotC9.AccumTextureID ≠ 0 ∧
      plotC9.RevealTextureID ≠ 0) ∧
    ImPlot3D_ImplOpenGL3_RenderDrawData (fun _ => true) [plotC9] stW =
      ([plotC9], stW, []) :=
  ⟨⟨by decide, by decide, by decide, by decide, by decide, by decide,
    by decide, by decide, by decide⟩,
    C9_empty_geometry_noop (fun _ => true) plotC9 stW (by decide) (by decide)
      (by decide) (by decide) (by decide) (by decide) (by decide) (by decide)
      (by decide)⟩

/-- C10: a record with `ShouldRender = false` is skipped entirely by the
render pass even if `ShouldResize` is set: the per-record step returns
the record, the backend (pool and driver table included) and an empty
event list unchanged, so the record keeps its old-size textures; over a
whole frame only the spec-mandated buffer reset touches it. -/
theorem C10_hidden_record_skipped (fb : Bool) (fbOk : Nat → Bool)
    (p : ImDrawData3DPlot) (st : Backend) (h1 : p.ShouldRender = false) :
    renderPlotStep fb p st = (p, st, []) ∧
    (p.ShouldDelete = false →
      ImPlot3D_ImplOpenGL3_RenderDrawData fbOk [p] st =
        ([p.ResetBuffers], st, [])) := by
  refine ⟨renderPlotStep_skip fb p st h1, fun h3 => ?_⟩
  have hdel : deletePass [p] st = ([p], st) := by
    simp [deletePass, h3]
  have hstep := renderPlotStep_skip (fbOk 0) p st h1
  rcases hrd : ImPlot3D_ImplOpenGL3_RenderDrawData fbOk [p] st with ⟨l, s, e⟩
  rw [renderDrawData_unfold, hdel] at hrd
  simp only [renderPass, hstep, Prod.mk.injEq, List.map_cons, List.map_nil,
    List.nil_append] at hrd
  obtain ⟨hl, hs, he⟩ := hrd
  rw [← hl, ← hs, ← he]

/-- Witness for C10 at the concrete hidden resizing record `plotC10`. -/
theorem C10_witness :
    plotC10.ShouldRender = false ∧ plotC10.ShouldDelete = false ∧
    renderPlotStep true plotC10 stW = (plotC10, stW, []) ∧
    ImPlot3D_ImplOpenGL3_RenderDrawData (fun _ => true) [plotC10] stW =
      ([plotC10.ResetBuffers], stW, []) :=
  ⟨by decide, by decide,
    (C10_hidden_record_skipped true (fun _ => true) plotC10 stW
      (by decide)).1,
    (C10_hidden_record_skipped true (fun _ => true) plotC10 stW
      (by decide)).2 (by decide)⟩

theorem destroy_table_mem (h : Nat) (st : Backend) :
    ∀ e ∈ (ImPlot3D_ImplOpenGL3_DestroyTexture h st).texTable,
      e ∈ st.texTable := by
  unfold ImPlot3D_ImplOpenGL3_DestroyTexture
  split
  · intro e he; exact List.mem_of_mem_filter he
  · intro e he; exact he

theorem destroyPlot_table_mem (p : ImDrawData3DPlot) (st : Backend) :
    ∀ e ∈ (destroyPlotTextures p st).texTable, e ∈ st.texTable := by
  rw [destroyPlotTextures_eq]
  intro e he
  exact destroy_table_mem _ _ _ (destroy_table_mem _ _ _
    (destroy_table_mem _ _ _ (destroy_table_mem _ _ _ he)))

/-- If all four of a record's handles are the invalid sentinel, the
cleanup block does nothing. -/
theorem destroyPlot_zero (p : ImDrawData3DPlot) (st : Backend)
    (hc0 : p.ColorTextureID = 0) (hd0 : p.DepthTextureID = 0)
    (ha0 : p.AccumTextureID = 0) (hr0 : p.RevealTextureID = 0) :
    destroyPlotTextures p st = st := by
  rw [destroyPlotTextures_eq, hc0, hd0, ha0, hr0, destroyTexture_zero,
    destroyTexture_zero, destroyTexture_zero, destroyTexture_zero]

/-- Each of the four fresh textures made by the resize block has the
record's current size in the driver table. -/
theorem texSizeOf_resize (p : ImDrawData3DPlot) (st : Backend)
    (hWF : st.WF) (hw : 0 < p.TextureSize.1) (hh : 0 < p.TextureSize.2)
    (k : Nat) (hk : k < 4) :
    texSizeOf (resizePlotTextures p st).2 (st.nextTexId + k) =
      some p.TextureSize := by
  obtain ⟨hnd, hbound, htbl, hpos⟩ := hWF
  rw [resizePlotTextures_spec p st hw hh]
  unfold texSizeOf
  simp only
  rw [find?_append_of_none]
  · interval_cases k <;>
      simp [List.find?, Prod.mk.eta] <;> omega
  · intro e he
    have hlt : e.1 < st.nextTexId := (htbl e (destroyPlot_table_mem p st e he)).2
    simp only [decide_eq_false_iff_not]
    omega

/-- No old (tracked, non-sentinel) handle of the record survives the
resize block in the pool. -/
theorem resize_old_released (p : ImDrawData3DPlot) (st : Backend)
    (hWF : st.WF) (hTr : PlotTexTracked st p)
    (hw : 0 < p.TextureSize.1) (hh : 0 < p.TextureSize.2) (t : Nat)
    (hmem : t ∈ [p.ColorTextureID, p.DepthTextureID, p.AccumTextureID,
      p.RevealTextureID]) (ht : t ≠ 0) :
    t ∉ (resizePlotTextures p st).2.createdTextures := by
  obtain ⟨hnd, hbound, htbl, hpos⟩ := hWF
  have htrk : t ∈ st.createdTextures := hTr t hmem ht
  have hlt : t < st.nextTexId := (hbound t htrk).2
  rw [resizePlotTextures_spec p st hw hh]
  simp only [List.mem_append, not_or]
  refine ⟨destroyPlot_removes p st hnd t hmem ht, ?_⟩
  simp only [List.mem_cons, List.not_mem_nil, or_false, not_or]
  exact ⟨by omega, by omega, by omega, by omega⟩

/-- C2 (corrected): `RenderDrawData` creates textures only inside the
resize branch — when a record is observed with `ShouldRender = true`
AND `ShouldResize = true` (and a positive size), all four textures are
created at once: the record receives the four fresh, pairwise-distinct,
non-sentinel handles `n, n+1, n+2, n+3`, exactly those are appended to
the resource pool, and each is created at the record's current
`TextureSize`. -/
theorem C2_amended_creates_all_four_on_resize (fb : Bool)
    (p : ImDrawData3DPlot) (st : Backend) (hWF : st.WF)
    (hr : p.ShouldRender = true) (hrs : p.ShouldResize = true)
    (hc0 : p.ColorTextureID = 0) (hd0 : p.DepthTextureID = 0)
    (ha0 : p.AccumTextureID = 0) (hr0 : p.RevealTextureID = 0)
    (hw : 0 < p.TextureSize.1) (hh : 0 < p.TextureSize.2) :
    (renderPlotStep fb p st).1.ColorTextureID = st.nextTexId ∧
    (renderPlotStep fb p st).1.DepthTextureID = st.nextTexId + 1 ∧
    (renderPlotStep fb p st).1.AccumTextureID = st.nextTexId + 2 ∧
    (renderPlotStep fb p st).1.RevealTextureID = st.nextTexId + 3 ∧
    st.nextTexId ≠ 0 ∧
    (renderPlotStep fb p st).2.1.createdTextures = st.createdTextures ++
      [st.nextTexId, st.nextTexId + 1, st.nextTexId + 2,
        st.nextTexId + 3] ∧
    (∀ k, k < 4 →
      texSizeOf (renderPlotStep fb p st).2.1 (st.nextTexId + k) =
        some p.TextureSize) := by
  obtain ⟨hfst, hsnd⟩ := renderPlotStep_resize fb p st hr hrs
  have hzero := destroyPlot_zero p st hc0 hd0 ha0 hr0
  refine ⟨?_, ?_, ?_, ?_, ?_, ?_, ?_⟩
  · rw [hfst, resizePlotTextures_spec p st hw hh]
  · rw [hfst, resizePlotTextures_spec p st hw hh]
  · rw [hfst, resizePlotTextures_spec p st hw hh]
  · rw [hfst, resizePlotTextures_spec p st hw hh]
  · have := hWF.2.2.2
    omega
  · rw [hsnd, resizePlotTextures_spec p st hw hh]
    simp only [hzero]
  · intro k hk
    rw [hsnd]
    exact texSizeOf_resize p st hWF hw hh k hk

/-- Counterexample to C2 as stated: `plotC2` is observed for the first
time with `ShouldRender = true` and no allocated textures, but with
`ShouldResize = false`; `RenderDrawData` creates nothing — the backend
(pool included) is unchanged and all four handles are still the
sentinel. -/
theorem C2_counterexample :
    plotC2.ShouldRender = true ∧ plotC2.ColorTextureID = 0 ∧
    plotC2.DepthTextureID = 0 ∧ plotC2.AccumTextureID = 0 ∧
    plotC2.RevealTextureID = 0 ∧
    (ImPlot3D_ImplOpenGL3_RenderDrawData (fun _ => true) [plotC2] stW).2.1 =
      stW ∧
    ((ImPlot3D_ImplOpenGL3_RenderDrawData (fun _ => true) [plotC2] stW).1.map
      (fun q => (q.ColorTextureID, q.DepthTextureID, q.AccumTextureID,
        q.RevealTextureID))) = [(0, 0, 0, 0)] := by
  decide

/-- C3 (corrected): a visible record observed with `ShouldResize = true`
(and positive size) has its old tracked textures released from the
pool and four fresh textures created at the updated `TextureSize`, so
it again owns a full live texture set at the current size — but
`RenderDrawData` does NOT clear `ShouldResize`; the flag leaves the
call still set (it is maintained by the owning widget layer). -/
theorem C3_amended_resize_recreates (fb : Bool) (p : ImDrawData3DPlot)
    (st : Backend) (hWF : st.WF) (hTr : PlotTexTracked st p)
    (hr : p.ShouldRender = true) (hrs : p.ShouldResize = true)
    (hw : 0 < p.TextureSize.1) (hh : 0 < p.TextureSize.2) :
    (renderPlotStep fb p st).1.ColorTextureID = st.nextTexId ∧
    (renderPlotStep fb p st).1.DepthTextureID = st.nextTexId + 1 ∧
    (renderPlotStep fb p st).1.AccumTextureID = st.nextTexId + 2 ∧
    (renderPlotStep fb p st).1.RevealTextureID = st.nextTexId + 3 ∧
    st.nextTexId ≠ 0 ∧
    (∀ k, k < 4 →
      st.nextTexId + k ∈ (renderPlotStep fb p st).2.1.createdTextures ∧
      texSizeOf (renderPlotStep fb p st).2.1 (st.nextTexId + k) =
        some p.TextureSize) ∧
    (∀ t ∈ [p.ColorTextureID, p.DepthTextureID, p.AccumTextureID,
        p.RevealTextureID], t ≠ 0 →
      t ∉ (renderPlotStep fb p st).2.1.createdTextures) ∧
    (renderPlotStep fb p st).1.ShouldResize = true := by
  obtain ⟨hfst, hsnd⟩ := renderPlotStep_resize fb p st hr hrs
  refine ⟨?_, ?_, ?_, ?_, ?_, ?_, ?_, ?_⟩
  · rw [hfst, resizePlotTextures_spec p st hw hh]
  · rw [hfst, resizePlotTextures_spec p st hw hh]
  · rw [hfst, resizePlotTextures_spec p st hw hh]
  · rw [hfst, resizePlotTextures_spec p st hw hh]
  · have := hWF.2.2.2
    omega
  · intro k hk
    constructor
    · rw [hsnd, resizePlotTextures_spec p st hw hh]
      simp only [List.mem_append, List.mem_cons]
      interval_cases k <;> simp
    · rw [hsnd]
      exact texSizeOf_resize p st hWF hw hh k hk
  · intro t hmem ht
    rw [hsnd]
    exact resize_old_released p st hWF hTr hw hh t hmem ht
  · rw [hfst, resizePlotTextures_spec p st hw hh]
    exact hrs

/-- Counterexample to C3 as stated: the record `plotC3` goes through a
full `RenderDrawData` call with `ShouldRender` and `ShouldResize` set,
yet comes out with `ShouldResize` still `true` — the call does not
clear the flag. -/
theorem C3_counterexample :
    plotC3.ShouldRender = true ∧ plotC3.ShouldResize = true ∧
    ((ImPlot3D_ImplOpenGL3_RenderDrawData (fun _ => true) [plotC3]
      stW).1.map (fun q => q.ShouldResize)) = [true] := by
  decide

/-- A record as `plotC2` but with the resize flag set (the amended C2
trigger). -/
def plotC2r : ImDrawData3DPlot :=
  ⟨(256, 256), (0, 0, 0, 1), [], [], 0, 0, 0, 0, true, true, false⟩

/-- Witness for the amended C2 at the concrete uninitialized resizing
record `plotC2r` on the backend `stW`. -/
theorem C2_amended_witness :
    (stW.WF ∧ plotC2r.ShouldRender = true ∧ plotC2r.ShouldResize = true ∧
      plotC2r.ColorTextureID = 0 ∧ plotC2r.DepthTextureID = 0 ∧
      plotC2r.AccumTextureID = 0 ∧ plotC2r.RevealTextureID = 0 ∧
      0 < plotC2r.TextureSize.1 ∧ 0 < plotC2r.TextureSize.2) ∧
    ((renderPlotStep true plotC2r stW).1.ColorTextureID = stW.nextTexId ∧
    (renderPlotStep true plotC2r stW).1.DepthTextureID = stW.nextTexId + 1 ∧
    (renderPlotStep true plotC2r stW).1.AccumTextureID = stW.nextTexId + 2 ∧
    (renderPlotStep true plotC2r stW).1.RevealTextureID = stW.nextTexId + 3 ∧
    stW.nextTexId ≠ 0 ∧
    (renderPlotStep true plotC2r stW).2.1.createdTextures =
      stW.createdTextures ++ [stW.nextTexId, stW.nextTexId + 1,
        stW.nextTexId + 2, stW.nextTexId + 3] ∧
    (∀ k, k < 4 →
      texSizeOf (renderPlotStep true plotC2r stW).2.1 (stW.nextTexId + k) =
        some plotC2r.TextureSize)) :=
  ⟨⟨by decide, by decide, by decide, by decide, by decide, by decide,
    by decide, by decide, by decide⟩,
    C2_amended_creates_all_four_on_resize true plotC2r stW (by decide)
      (by decide) (by decide) (by decide) (by decide) (by decide) (by decide)
      (by decide) (by decide)⟩

/-- Witness for the amended C3 at the concrete resizing record
`plotC3`, whose four old textures are live in `stW`. -/
theorem C3_amended_witness :
    (stW.WF ∧ PlotTexTracked stW plotC3 ∧ plotC3.ShouldRender = true ∧
      plotC3.ShouldResize = true ∧ 0 < plotC3.TextureSize.1 ∧
      0 < plotC3.TextureSize.2) ∧
    ((renderPlotStep true plotC3 stW).1.ColorTextureID = stW.nextTexId ∧
    (renderPlotStep true plotC3 stW).1.DepthTextureID = stW.nextTexId + 1 ∧
    (renderPlotStep true plotC3 stW).1.AccumTextureID = stW.nextTexId + 2 ∧
    (renderPlotStep true plotC3 stW).1.RevealTextureID = stW.nextTexId + 3 ∧
    stW.nextTexId ≠ 0 ∧
    (∀ k, k < 4 →
      stW.nextTexId + k ∈ (renderPlotStep true plotC3 stW).2.1.createdTextures ∧
      texSizeOf (renderPlotStep true plotC3 stW).2.1 (stW.nextTexId + k) =
        some plotC3.TextureSize) ∧
    (∀ t ∈ [plotC3.ColorTextureID, plotC3.DepthTextureID,
        plotC3.AccumTextureID, plotC3.RevealTextureID], t ≠ 0 →
      t ∉ (renderPlotStep true plotC3 stW).2.1.createdTextures) ∧
    (renderPlotStep true plotC3 stW).1.ShouldResize = true) :=
  ⟨⟨by decide, by decide, by decide, by decide, by decide, by decide⟩,
    C3_amended_resize_recreates true plotC3 stW (by decide) (by decide)
      (by decide) (by decide) (by decide) (by decide)⟩

/-- C4: the accumulate pass writes `(color.rgb * weight, weight)` and
`color.alpha` with `weight = alpha * clamp(0.03 / (1e-5 + (z/200)^4),
1e-2, 3e3)` and `z` the depth normalized from `[-1, 1]` to `[0, 1]`,
and the composite pass discards below the small alpha threshold
`0.00001` and otherwise outputs `(accum.rgb / accum.a,
sqrt(clamp(reveal, 0, 1)))`: the shader source agrees pointwise with
the spec-worded computation. -/
theorem C4_wboit_fragment_refinement :
    (∀ (c : Vec4) (d : ℝ),
      accumFragmentShader c d = spec_accumFragment c d) ∧
    (∀ (acc : Vec4) (rev : ℝ),
      compositeFragmentShader acc rev =
        spec_compositeFragment 0.00001 acc rev) := by
  constructor
  · intro c d
    have hz : ((d + 1.0) * 0.5 : ℝ) = (d - (-1)) / (1 - (-1)) := by
      norm_num
      ring
    have h200 : (200.0 : ℝ) = 200 := by norm_num
    simp only [accumFragmentShader, spec_accumFragment, hz, h200]
  · intro acc rev
    simp only [compositeFragmentShader, spec_compositeFragment]
    norm_num
